import Mathlib

/-!
# Verification of the PostgreSQL telemetry collector's orchestration core

Shallow embedding of the collection-orchestration engine of the
`psql-next` repository: capability detection, metric-eligibility gating,
query dispatch (SQL text selection and parameter binding), the
plan-regression LRU cache, and the active-session-history sampler's
ring-buffer maintenance.  Database I/O is modelled by passing each
query's outcome (`Except`-valued) explicitly into the embedded control
flow; machine integers are modelled as `Nat`/`Int` (no overflow is
relevant to the verified properties).
-/

namespace PsqlNext

/-- Model of `ExtensionInfo` from `crates/core/src/collector.rs`. -/
structure ExtensionInfo where
  name : String
  version : String
  enabled : Bool
  deriving DecidableEq, Repr

/-- Model of `HashMap<String, ExtensionInfo>` as a finite lookup function. -/
def ExtMap : Type := String → Option ExtensionInfo

/-- The empty extension map (`HashMap::new()`). -/
def ExtMap.empty : ExtMap := fun _ => none

/-- Model of `HashMap::insert` on the extension map. -/
def ExtMap.insert (m : ExtMap) (k : String) (v : ExtensionInfo) : ExtMap :=
  fun n => if n = k then some v else m n

/-- Model of `HashMap::contains_key` on the extension map. -/
def ExtMap.containsKey (m : ExtMap) (k : String) : Bool :=
  (m k).isSome

/-- Model of `HashMap::remove` on the extension map (used to express "the
extension is entirely absent"). -/
def ExtMap.remove (m : ExtMap) (k : String) : ExtMap :=
  fun n => if n = k then none else m n

/-- Model of `Capabilities` from `crates/core/src/collector.rs` (version is `u64`,
modelled as `Nat`). -/
structure Capabilities where
  version : Nat
  is_rds : Bool
  extensions : ExtMap
  has_superuser : Bool
  has_ebpf_support : Bool

/-- Model of `Capabilities::has_extension`: present-and-enabled lookup
(`extensions.get(name).map(|e| e.enabled).unwrap_or(false)`). -/
def Capabilities.has_extension (c : Capabilities) (name : String) : Bool :=
  ((c.extensions name).map (fun e => e.enabled)).getD false

/-- Model of `Capabilities::supports_wait_events`. -/
def Capabilities.supports_wait_events (c : Capabilities) : Bool :=
  c.has_extension "pg_stat_statements" &&
    (c.has_extension "pg_wait_sampling" || c.is_rds)

/-- Model of `Capabilities::supports_blocking_sessions`: the source matches
`12 | 13 => true`, then `v if v >= 14` requires statement statistics,
and everything else (versions below 12) is `false`. -/
def Capabilities.supports_blocking_sessions (c : Capabilities) : Bool :=
  if c.version = 12 ∨ c.version = 13 then true
  else if c.version ≥ 14 then c.has_extension "pg_stat_statements"
  else false

/-- Model of `Capabilities::supports_individual_queries`. -/
def Capabilities.supports_individual_queries (c : Capabilities) : Bool :=
  c.has_extension "pg_stat_monitor" || c.is_rds

/-- Enabled-lookup on a bare extensions map, as used by `OHIValidations`
(`extensions.get(name).map(|e| e.enabled).unwrap_or(false)`). -/
def extEnabled (m : ExtMap) (name : String) : Bool :=
  ((m name).map (fun e => e.enabled)).getD false

/-- Model of `OHIValidations::check_slow_query_metrics_fetch_eligibility`
from `crates/extensions/src/lib.rs`. -/
def check_slow_query_metrics_fetch_eligibility (m : ExtMap) : Bool :=
  extEnabled m "pg_stat_statements"

/-- Model of `OHIValidations::check_wait_event_metrics_fetch_eligibility`
from `crates/extensions/src/lib.rs`. -/
def check_wait_event_metrics_fetch_eligibility (m : ExtMap) : Bool :=
  extEnabled m "pg_stat_statements" && extEnabled m "pg_wait_sampling"

/-- Model of `OHIValidations::check_blocking_session_metrics_fetch_eligibility`
from `crates/extensions/src/lib.rs`. -/
def check_blocking_session_metrics_fetch_eligibility
    (m : ExtMap) (version : Nat) : Bool :=
  if version = 12 ∨ version = 13 then true
  else extEnabled m "pg_stat_statements"

/-- Model of `OHIValidations::check_individual_query_metrics_fetch_eligibility`
from `crates/extensions/src/lib.rs`. -/
def check_individual_query_metrics_fetch_eligibility (m : ExtMap) : Bool :=
  extEnabled m "pg_stat_monitor"

/-- Model of `OHIValidations::check_postgres_version_support_for_query_monitoring`. -/
def check_postgres_version_support_for_query_monitoring (version : Nat) : Bool :=
  version ≥ 12

/-!
## Plan-regression cache (`database-intelligence-mvp/src/collection_engine.rs`)

`PlanCache` wraps an `lru::LruCache<String, PlanFingerprint>`.  The LRU
cache is modelled as an association list in most-recently-used-first
order together with its capacity; `get` promotes the hit entry to the
front, `put` inserts/replaces at the front and evicts the last
(least-recently-used) entry when the length exceeds the capacity, and
`peek` looks up without promotion — the semantics of the `lru` crate.
-/

/-- Model of `PlanFingerprint` (the `cost: f64` is only ever written as `0.0` by
`check_regression`, so it is modelled as an `Int`; `timestamp` is an
abstract clock value). -/
structure PlanFingerprint where
  hash : String
  cost : Int
  timestamp : Int
  node_count : Nat
  deriving DecidableEq, Repr

/-- Model of `lru::LruCache<String, α>`: entries in recency order
(head = most recently used) plus the fixed capacity. -/
structure LruCache (α : Type) where
  entries : List (String × α)
  cap : Nat

/-- First-match lookup in the recency list. -/
def lruLookup {α : Type} : List (String × α) → String → Option α
  | [], _ => none
  | (k', v) :: rest, k => if k' = k then some v else lruLookup rest k

/-- Remove every entry with the given key from the recency list. -/
def lruRemove {α : Type} : List (String × α) → String → List (String × α)
  | [], _ => []
  | (k', v) :: rest, k =>
    if k' = k then lruRemove rest k else (k', v) :: lruRemove rest k

/-- Model of `LruCache::get`: on a hit, promote the entry to most-recently-used
and return its value; on a miss, leave the cache unchanged. -/
def LruCache.get {α : Type} (c : LruCache α) (k : String) :
    Option α × LruCache α :=
  match lruLookup c.entries k with
  | some v => (some v, { c with entries := (k, v) :: lruRemove c.entries k })
  | none => (none, c)

/-- Model of `LruCache::put`: insert/replace the key at most-recently-used
position; if the length then exceeds the capacity, evict the
least-recently-used entry. -/
def LruCache.put {α : Type} (c : LruCache α) (k : String) (v : α) :
    LruCache α :=
  let entries' := (k, v) :: lruRemove c.entries k
  { c with entries := if c.cap < entries'.length then entries'.dropLast else entries' }

/-- Model of `LruCache::peek`: lookup without promotion. -/
def LruCache.peek {α : Type} (c : LruCache α) (k : String) : Option α :=
  lruLookup c.entries k

/-- Model of `PlanCache` from `database-intelligence-mvp/src/collection_engine.rs`. -/
structure PlanCache where
  cache : LruCache PlanFingerprint

/-- Model of `PlanCache::new(capacity)`. -/
def PlanCache.new (capacity : Nat) : PlanCache :=
  { cache := { entries := [], cap := capacity } }

/-- Model of `PlanCache::check_regression`: first observation stores the hash and
returns `false`; on a hit with a different hash, the cache entry is
overwritten with the new hash (cost `0.0`, fresh timestamp, node count
`0`) and `true` is returned; on a hit with the same hash, `false`.
`now` stands for `Utc::now()`. -/
def PlanCache.check_regression (c : PlanCache) (query_id new_hash : String)
    (now : Int) : Bool × PlanCache :=
  let fp : PlanFingerprint :=
    { hash := new_hash, cost := 0, timestamp := now, node_count := 0 }
  match c.cache.get query_id with
  | (some existing, cache') =>
    if existing.hash ≠ new_hash then
      (true, { cache := cache'.put query_id fp })
    else
      (false, { cache := cache' })
  | (none, cache') =>
    (false, { cache := cache'.put query_id fp })

/-- Model of `PlanCache::get_previous_hash`: `peek` (no promotion), projecting the
stored hash. -/
def PlanCache.get_previous_hash (c : PlanCache) (query_id : String) :
    Option String :=
  (c.cache.peek query_id).map (fun f => f.hash)

/-- The `previous_plan_hash` value recorded on an `ExecutionPlanMetric` by
`UnifiedCollectionEngine::collect_execution_plans`: `check_regression`
runs first, and only if it reported a regression is
`get_previous_hash` consulted (on the already-updated cache). -/
def reported_previous_plan_hash (c : PlanCache) (query_id plan_hash : String)
    (now : Int) : Option String :=
  let r := c.check_regression query_id plan_hash now
  if r.1 then (r.2).get_previous_hash query_id else none

/-!
## Active Session History sampler (`crates/extensions/src/lib.rs`)

The sampler's background loop, per tick: (a) capture active sessions;
(b) if the memory estimate exceeds the ceiling, drop the oldest 10% of
samples; (c) append each new sample, popping the front whenever the
length exceeds `max_samples`; (d) drop from the front everything older
than the retention cutoff.  The `VecDeque` is modelled as a list whose
head is the front (oldest sample); a tick on which connection
acquisition or the capture query fails leaves the buffer untouched.
-/

/-- Model of `ASHSample` from `crates/core/src/metrics.rs` (timestamps as `Int`,
`i32`/`i64` as `Int`). -/
structure ASHSample where
  sample_time : Int
  pid : Int
  usename : String
  datname : String
  query_id : Option Int
  state : String
  wait_event_type : Option String
  wait_event : Option String
  query : Option String
  backend_type : String
  deriving DecidableEq, Repr

/-- Model of `ActiveSessionSampler::new`: `max_samples =
retention_period.as_secs() / sample_interval.as_secs()` (integer
division on whole seconds). -/
def maxSamplesOf (sample_interval_secs retention_period_secs : Nat) : Nat :=
  retention_period_secs / sample_interval_secs

/-- Model of `ActiveSessionSampler::estimate_memory_usage`: `len * 700 /
(1024*1024)` megabytes. -/
def estimate_memory_usage (samples : List ASHSample) : Nat :=
  samples.length * 700 / (1024 * 1024)

/-- Memory-ceiling eviction phase of a tick: when the estimate exceeds
`max_memory_mb`, remove the oldest `len / 10` samples from the front. -/
def memEvict (max_memory_mb : Nat) (buf : List ASHSample) : List ASHSample :=
  if estimate_memory_usage buf > max_memory_mb then
    buf.drop (buf.length / 10)
  else buf

/-- Insertion phase of a tick: `push_back` each captured sample, popping
the front whenever the length exceeds `max_samples`. -/
def insertSamples (max_samples : Nat) (buf new : List ASHSample) :
    List ASHSample :=
  new.foldl (fun acc s =>
    let acc' := acc ++ [s]
    if max_samples < acc'.length then acc'.drop 1 else acc') buf

/-- Retention phase of a tick: pop from the front while the front sample
is older than the cutoff (`Utc::now() - retention`). -/
def retentionEvict (cutoff : Int) (buf : List ASHSample) : List ASHSample :=
  buf.dropWhile (fun s => s.sample_time < cutoff)

/-- One full successful tick of `start_sampling`'s background loop. -/
def samplerTick (max_samples max_memory_mb : Nat) (cutoff : Int)
    (new : List ASHSample) (buf : List ASHSample) : List ASHSample :=
  retentionEvict cutoff (insertSamples max_samples (memEvict max_memory_mb buf) new)

/-- A tick's observable input: `none` when connection acquisition or the
capture query failed (buffer untouched), `some new` for the captured
samples otherwise. -/
def samplerTickOutcome (max_samples max_memory_mb : Nat)
    (o : Option (Int × List ASHSample)) (buf : List ASHSample) :
    List ASHSample :=
  match o with
  | none => buf
  | some (cutoff, new) => samplerTick max_samples max_memory_mb cutoff new buf

/-- The buffer after a sequence of ticks, starting from the empty
`VecDeque` created by `ActiveSessionSampler::new`. -/
def runSampler (max_samples max_memory_mb : Nat)
    (ticks : List (Option (Int × List ASHSample))) : List ASHSample :=
  ticks.foldl (fun buf o => samplerTickOutcome max_samples max_memory_mb o buf) []

/-!
## Query templates

The SQL texts below are verbatim copies of the string constants in
`crates/query-engine/src/queries.rs` (`ohi_queries` and
`extended_queries`) and of the inline SQL literals of
`SafeQueryExecutor` in `crates/query-engine/src/safe_queries.rs`.
-/

/-- Verbatim `ohi_queries::SLOW_QUERIES_V12` template from `crates/query-engine/src/queries.rs`. -/
def SLOW_QUERIES_V12 : String := "
        SELECT 'newrelic' as newrelic,
            pss.queryid AS query_id,
            LEFT(pss.query, 4095) AS query_text,
            pd.datname AS database_name,
            current_schema() AS schema_name,
            pss.calls AS execution_count,
            ROUND((pss.total_time / pss.calls)::numeric, 3) AS avg_elapsed_time_ms,
            pss.shared_blks_read / pss.calls AS avg_disk_reads,
            pss.shared_blks_written / pss.calls AS avg_disk_writes,
            CASE
                WHEN pss.query ILIKE 'SELECT%%' THEN 'SELECT'
                WHEN pss.query ILIKE 'INSERT%%' THEN 'INSERT'
                WHEN pss.query ILIKE 'UPDATE%%' THEN 'UPDATE'
                WHEN pss.query ILIKE 'DELETE%%' THEN 'DELETE'
                ELSE 'OTHER'
            END AS statement_type,
            to_char(NOW() AT TIME ZONE 'UTC', 'YYYY-MM-DD\"T\"HH24:MI:SS\"Z\"') AS collection_timestamp
        FROM pg_stat_statements pss
        JOIN pg_database pd ON pss.dbid = pd.oid
        WHERE pd.datname in (%s)
            AND pss.query NOT ILIKE 'EXPLAIN (FORMAT JSON)%%'
            AND pss.query NOT ILIKE 'SELECT $1 as newrelic%%'
            AND pss.query NOT ILIKE 'WITH wait_history AS%%'
            AND pss.query NOT ILIKE 'select -- BLOATQUERY%%'
            AND pss.query NOT ILIKE 'select -- INDEXQUERY%%'
            AND pss.query NOT ILIKE 'SELECT -- TABLEQUERY%%'
            AND pss.query NOT ILIKE 'SELECT table_schema%%'
        ORDER BY avg_elapsed_time_ms DESC
        LIMIT %d;
    "

/-- Verbatim `ohi_queries::SLOW_QUERIES_V13_ABOVE` template from `crates/query-engine/src/queries.rs`. -/
def SLOW_QUERIES_V13_ABOVE : String := "
        SELECT 'newrelic' as newrelic,
            pss.queryid AS query_id,
            LEFT(pss.query, 4095) AS query_text,
            pd.datname AS database_name,
            current_schema() AS schema_name,
            pss.calls AS execution_count,
            ROUND((pss.total_exec_time / pss.calls)::numeric, 3) AS avg_elapsed_time_ms,
            pss.shared_blks_read / pss.calls AS avg_disk_reads,
            pss.shared_blks_written / pss.calls AS avg_disk_writes,
            CASE
                WHEN pss.query ILIKE 'SELECT%%' THEN 'SELECT'
                WHEN pss.query ILIKE 'INSERT%%' THEN 'INSERT'
                WHEN pss.query ILIKE 'UPDATE%%' THEN 'UPDATE'
                WHEN pss.query ILIKE 'DELETE%%' THEN 'DELETE'
                ELSE 'OTHER'
            END AS statement_type,
            to_char(NOW() AT TIME ZONE 'UTC', 'YYYY-MM-DD\"T\"HH24:MI:SS\"Z\"') AS collection_timestamp
        FROM pg_stat_statements pss
        JOIN pg_database pd ON pss.dbid = pd.oid
        WHERE pd.datname in (%s)
            AND pss.query NOT ILIKE 'EXPLAIN (FORMAT JSON)%%'
            AND pss.query NOT ILIKE 'SELECT $1 as newrelic%%'
            AND pss.query NOT ILIKE 'WITH wait_history AS%%'
            AND pss.query NOT ILIKE 'select -- BLOATQUERY%%'
            AND pss.query NOT ILIKE 'select -- INDEXQUERY%%'
            AND pss.query NOT ILIKE 'SELECT -- TABLEQUERY%%'
            AND pss.query NOT ILIKE 'SELECT table_schema%%'
        ORDER BY avg_elapsed_time_ms DESC
        LIMIT %d;
    "

/-- Verbatim `ohi_queries::WAIT_EVENTS` template from `crates/query-engine/src/queries.rs`. -/
def WAIT_EVENTS : String := "
        WITH wait_history AS (
            SELECT 
                event_time,
                pid,
                wait_event_type,
                wait_event,
                LAG(event_time) OVER (PARTITION BY pid ORDER BY event_time) AS prev_time
            FROM pg_wait_sampling_history
        )
        SELECT
            wh.pid,
            wh.wait_event_type,
            wh.wait_event,
            EXTRACT(EPOCH FROM (wh.event_time - wh.prev_time)) * 1000 AS wait_time_ms,
            psa.state,
            psa.usename,
            psa.datname AS database_name,
            psa.query_id,
            LEFT(psa.query, 4095) AS query_text,
            to_char(NOW() AT TIME ZONE 'UTC', 'YYYY-MM-DD\"T\"HH24:MI:SS\"Z\"') AS collection_timestamp
        FROM wait_history wh
        JOIN pg_stat_activity psa ON wh.pid = psa.pid
        WHERE wh.prev_time IS NOT NULL
            AND psa.datname IN (%s)
            AND psa.state != 'idle'
        ORDER BY wait_time_ms DESC
        LIMIT %d;
    "

/-- Verbatim `ohi_queries::WAIT_EVENTS_RDS` template from `crates/query-engine/src/queries.rs`. -/
def WAIT_EVENTS_RDS : String := "
        SELECT
            pid,
            wait_event_type,
            wait_event,
            0 AS wait_time_ms,
            state,
            usename,
            datname AS database_name,
            query_id,
            LEFT(query, 4095) AS query_text,
            to_char(NOW() AT TIME ZONE 'UTC', 'YYYY-MM-DD\"T\"HH24:MI:SS\"Z\"') AS collection_timestamp
        FROM pg_stat_activity
        WHERE datname IN (%s)
            AND state != 'idle'
            AND wait_event IS NOT NULL
        LIMIT %d;
    "

/-- Verbatim `ohi_queries::BLOCKING_V12_13` template from `crates/query-engine/src/queries.rs`. -/
def BLOCKING_V12_13 : String := "
        SELECT
            blocking.pid AS blocking_pid,
            blocked.pid AS blocked_pid,
            LEFT(blocking.query, 4095) AS blocking_query,
            LEFT(blocked.query, 4095) AS blocked_query,
            blocking.datname AS blocking_database,
            blocked.datname AS blocked_database,
            blocking.usename AS blocking_user,
            blocked.usename AS blocked_user,
            EXTRACT(EPOCH FROM (NOW() - blocking.query_start)) * 1000 AS blocking_duration_ms,
            EXTRACT(EPOCH FROM (NOW() - blocked.query_start)) * 1000 AS blocked_duration_ms,
            'AccessShareLock' AS lock_type,
            to_char(NOW() AT TIME ZONE 'UTC', 'YYYY-MM-DD\"T\"HH24:MI:SS\"Z\"') AS collection_timestamp
        FROM pg_stat_activity blocked
        JOIN pg_stat_activity blocking ON blocking.pid = ANY(pg_blocking_pids(blocked.pid))
        WHERE blocked.datname IN (%s)
        LIMIT %d;
    "

/-- Verbatim `ohi_queries::BLOCKING_V14_ABOVE` template from `crates/query-engine/src/queries.rs`. -/
def BLOCKING_V14_ABOVE : String := "
        WITH blocking_tree AS (
            SELECT
                blocking.pid AS blocking_pid,
                blocked.pid AS blocked_pid,
                blocking.queryid AS blocking_queryid,
                blocked.queryid AS blocked_queryid,
                LEFT(blocking.query, 4095) AS blocking_query,
                LEFT(blocked.query, 4095) AS blocked_query,
                blocking.datname AS blocking_database,
                blocked.datname AS blocked_database,
                blocking.usename AS blocking_user,
                blocked.usename AS blocked_user,
                EXTRACT(EPOCH FROM (NOW() - blocking.query_start)) * 1000 AS blocking_duration_ms,
                EXTRACT(EPOCH FROM (NOW() - blocked.query_start)) * 1000 AS blocked_duration_ms,
                'AccessShareLock' AS lock_type
            FROM pg_stat_activity blocked
            JOIN pg_stat_activity blocking ON blocking.pid = ANY(pg_blocking_pids(blocked.pid))
            WHERE blocked.datname IN (%s)
        )
        SELECT
            blocking_pid,
            blocked_pid,
            blocking_query,
            blocked_query,
            blocking_database,
            blocked_database,
            blocking_user,
            blocked_user,
            blocking_duration_ms,
            blocked_duration_ms,
            lock_type,
            to_char(NOW() AT TIME ZONE 'UTC', 'YYYY-MM-DD\"T\"HH24:MI:SS\"Z\"') AS collection_timestamp
        FROM blocking_tree
        LIMIT %d;
    "

/-- Verbatim `ohi_queries::BLOCKING_RDS` template from `crates/query-engine/src/queries.rs`. -/
def BLOCKING_RDS : String := "
        SELECT
            blockers.pid AS blocking_pid,
            waiters.pid AS blocked_pid,
            LEFT(blockers.query, 4095) AS blocking_query,
            LEFT(waiters.query, 4095) AS blocked_query,
            blockers.datname AS blocking_database,
            waiters.datname AS blocked_database,
            blockers.usename AS blocking_user,
            waiters.usename AS blocked_user,
            EXTRACT(EPOCH FROM (NOW() - blockers.query_start)) * 1000 AS blocking_duration_ms,
            EXTRACT(EPOCH FROM (NOW() - waiters.query_start)) * 1000 AS blocked_duration_ms,
            waiters.wait_event_type AS lock_type,
            to_char(NOW() AT TIME ZONE 'UTC', 'YYYY-MM-DD\"T\"HH24:MI:SS\"Z\"') AS collection_timestamp
        FROM pg_stat_activity waiters
        JOIN pg_stat_activity blockers ON blockers.pid = ANY(pg_blocking_pids(waiters.pid))
        WHERE waiters.wait_event_type = 'Lock'
            AND waiters.datname IN (%s)
        LIMIT %d;
    "

/-- Verbatim `ohi_queries::INDIVIDUAL_V12` template from `crates/query-engine/src/queries.rs`. -/
def INDIVIDUAL_V12 : String := "
        SELECT
            pid,
            queryid AS query_id,
            LEFT(query, 4095) AS query_text,
            state,
            wait_event_type,
            wait_event,
            usename,
            datname AS database_name,
            to_char(backend_start AT TIME ZONE 'UTC', 'YYYY-MM-DD\"T\"HH24:MI:SS\"Z\"') AS backend_start,
            to_char(xact_start AT TIME ZONE 'UTC', 'YYYY-MM-DD\"T\"HH24:MI:SS\"Z\"') AS xact_start,
            to_char(query_start AT TIME ZONE 'UTC', 'YYYY-MM-DD\"T\"HH24:MI:SS\"Z\"') AS query_start,
            to_char(state_change AT TIME ZONE 'UTC', 'YYYY-MM-DD\"T\"HH24:MI:SS\"Z\"') AS state_change,
            backend_type,
            to_char(NOW() AT TIME ZONE 'UTC', 'YYYY-MM-DD\"T\"HH24:MI:SS\"Z\"') AS collection_timestamp
        FROM pg_stat_activity
        WHERE datname IN (%s)
            AND state != 'idle'
            AND pid != pg_backend_pid()
        LIMIT %d;
    "

/-- Verbatim `ohi_queries::INDIVIDUAL_V13_ABOVE` template from `crates/query-engine/src/queries.rs`. -/
def INDIVIDUAL_V13_ABOVE : String := "
        SELECT
            pid,
            queryid AS query_id,
            LEFT(query, 4095) AS query_text,
            state,
            wait_event_type,
            wait_event,
            usename,
            datname AS database_name,
            to_char(backend_start AT TIME ZONE 'UTC', 'YYYY-MM-DD\"T\"HH24:MI:SS\"Z\"') AS backend_start,
            to_char(xact_start AT TIME ZONE 'UTC', 'YYYY-MM-DD\"T\"HH24:MI:SS\"Z\"') AS xact_start,
            to_char(query_start AT TIME ZONE 'UTC', 'YYYY-MM-DD\"T\"HH24:MI:SS\"Z\"') AS query_start,
            to_char(state_change AT TIME ZONE 'UTC', 'YYYY-MM-DD\"T\"HH24:MI:SS\"Z\"') AS state_change,
            backend_type,
            to_char(NOW() AT TIME ZONE 'UTC', 'YYYY-MM-DD\"T\"HH24:MI:SS\"Z\"') AS collection_timestamp
        FROM pg_stat_activity
        WHERE datname IN (%s)
            AND state != 'idle'
            AND pid != pg_backend_pid()
        LIMIT %d;
    "

/-- Verbatim `extended_queries::ASH_SAMPLE` template from `crates/query-engine/src/queries.rs`. -/
def ASH_SAMPLE : String := "
        SELECT
            NOW() as sample_time,
            pid,
            usename,
            datname,
            queryid as query_id,
            state,
            wait_event_type,
            wait_event,
            LEFT(query, 4095) as query,
            backend_type
        FROM pg_stat_activity
        WHERE state != 'idle'
            AND pid != pg_backend_pid();
    "

/-- Verbatim `extended_queries::PLAN_HISTORY` template from `crates/query-engine/src/queries.rs`. -/
def PLAN_HISTORY : String := "
        SELECT DISTINCT ON (queryid)
            queryid AS query_id,
            query,
            plan,
            plans AS plan_count,
            total_plan_time,
            mean_plan_time
        FROM pg_stat_statements
        WHERE queryid IS NOT NULL
        ORDER BY queryid, calls DESC;
    "

/-- Verbatim `extended_queries::BUFFER_STATS_DETAIL` template from `crates/query-engine/src/queries.rs`. -/
def BUFFER_STATS_DETAIL : String := "
        SELECT
            queryid AS query_id,
            shared_blks_hit,
            shared_blks_read,
            shared_blks_dirtied,
            shared_blks_written,
            local_blks_hit,
            local_blks_read,
            local_blks_dirtied,
            local_blks_written,
            temp_blks_read,
            temp_blks_written,
            blk_read_time,
            blk_write_time
        FROM pg_stat_statements
        WHERE queryid IS NOT NULL;
    "

/-- Verbatim `ohi_queries::EXTENSION_CHECK` from `crates/query-engine/src/queries.rs`. -/
def EXTENSION_CHECK : String := "SELECT extname FROM pg_extension;"

/-- Verbatim `ohi_queries::VERSION_CHECK` from `crates/query-engine/src/queries.rs`. -/
def VERSION_CHECK : String := "SELECT current_setting('server_version_num')::integer / 10000 AS version;"

/-- SQL text from `SafeQueryExecutor` in `crates/query-engine/src/safe_queries.rs`. -/
def safeSlowQueriesV13Sql : String := "
            SELECT 
                pss.queryid AS query_id,
                LEFT(pss.query, 4095) AS query_text,
                pd.datname AS database_name,
                current_schema() AS schema_name,
                pss.calls AS execution_count,
                (pss.total_exec_time / NULLIF(pss.calls, 0)) AS avg_elapsed_time_ms,
                (pss.shared_blks_read::float8 / NULLIF(pss.calls, 0)) AS avg_disk_reads,
                (pss.shared_blks_written::float8 / NULLIF(pss.calls, 0)) AS avg_disk_writes,
                CASE
                    WHEN pss.query ILIKE 'SELECT%' THEN 'SELECT'
                    WHEN pss.query ILIKE 'INSERT%' THEN 'INSERT'
                    WHEN pss.query ILIKE 'UPDATE%' THEN 'UPDATE'
                    WHEN pss.query ILIKE 'DELETE%' THEN 'DELETE'
                    ELSE 'OTHER'
                END AS statement_type,
                to_char(NOW() AT TIME ZONE 'UTC', 'YYYY-MM-DD\"T\"HH24:MI:SS\"Z\"') AS collection_timestamp,
                NULL::text AS individual_query
            FROM pg_stat_statements pss
            JOIN pg_database pd ON pss.dbid = pd.oid
            WHERE pd.datname = ANY($1)
                AND pss.calls >= $2
                AND (pss.total_exec_time / NULLIF(pss.calls, 0)) >= $3
                AND pss.query NOT ILIKE 'EXPLAIN (FORMAT JSON)%'
            ORDER BY avg_elapsed_time_ms DESC
            LIMIT $4
            "

/-- SQL text from `SafeQueryExecutor` in `crates/query-engine/src/safe_queries.rs`. -/
def safeSlowQueriesLegacySql : String := "
            SELECT 
                pss.queryid AS query_id,
                LEFT(pss.query, 4095) AS query_text,
                pd.datname AS database_name,
                current_schema() AS schema_name,
                pss.calls AS execution_count,
                (pss.total_time / NULLIF(pss.calls, 0)) AS avg_elapsed_time_ms,
                (pss.shared_blks_read::float8 / NULLIF(pss.calls, 0)) AS avg_disk_reads,
                (pss.shared_blks_written::float8 / NULLIF(pss.calls, 0)) AS avg_disk_writes,
                CASE
                    WHEN pss.query ILIKE 'SELECT%' THEN 'SELECT'
                    WHEN pss.query ILIKE 'INSERT%' THEN 'INSERT'
                    WHEN pss.query ILIKE 'UPDATE%' THEN 'UPDATE'
                    WHEN pss.query ILIKE 'DELETE%' THEN 'DELETE'
                    ELSE 'OTHER'
                END AS statement_type,
                to_char(NOW() AT TIME ZONE 'UTC', 'YYYY-MM-DD\"T\"HH24:MI:SS\"Z\"') AS collection_timestamp,
                NULL::text AS individual_query
            FROM pg_stat_statements pss
            JOIN pg_database pd ON pss.dbid = pd.oid
            WHERE pd.datname = ANY($1)
                AND pss.calls >= $2
                AND (pss.total_time / NULLIF(pss.calls, 0)) >= $3
                AND pss.query NOT ILIKE 'EXPLAIN (FORMAT JSON)%'
            ORDER BY avg_elapsed_time_ms DESC
            LIMIT $4
            "

/-- SQL text from `SafeQueryExecutor` in `crates/query-engine/src/safe_queries.rs`. -/
def safeWaitEventsRdsSql : String := "
            SELECT 
                psa.pid,
                psa.wait_event_type,
                psa.wait_event,
                EXTRACT(EPOCH FROM (NOW() - psa.query_start)) * 1000 AS wait_time_ms,
                psa.state,
                psa.usename,
                psa.datname AS database_name,
                pss.queryid AS query_id,
                LEFT(psa.query, 4095) AS query_text,
                to_char(NOW() AT TIME ZONE 'UTC', 'YYYY-MM-DD\"T\"HH24:MI:SS\"Z\"') AS collection_timestamp
            FROM pg_stat_activity psa
            LEFT JOIN pg_stat_statements pss ON psa.query = pss.query
            WHERE psa.datname = ANY($1)
                AND psa.wait_event IS NOT NULL
                AND psa.state != 'idle'
            ORDER BY wait_time_ms DESC
            LIMIT 100
            "

/-- SQL text from `SafeQueryExecutor` in `crates/query-engine/src/safe_queries.rs`. -/
def safeWaitEventsSql : String := "
            WITH wait_history AS (
                SELECT 
                    event_time,
                    pid,
                    wait_event_type,
                    wait_event,
                    LAG(event_time) OVER (PARTITION BY pid ORDER BY event_time) AS prev_time
                FROM pg_wait_sampling_history
                WHERE event_time > NOW() - INTERVAL '5 minutes'
            )
            SELECT
                wh.pid,
                wh.wait_event_type,
                wh.wait_event,
                EXTRACT(EPOCH FROM (wh.event_time - COALESCE(wh.prev_time, wh.event_time))) * 1000 AS wait_time_ms,
                psa.state,
                psa.usename,
                psa.datname AS database_name,
                pss.queryid AS query_id,
                LEFT(psa.query, 4095) AS query_text,
                to_char(NOW() AT TIME ZONE 'UTC', 'YYYY-MM-DD\"T\"HH24:MI:SS\"Z\"') AS collection_timestamp
            FROM wait_history wh
            JOIN pg_stat_activity psa ON wh.pid = psa.pid
            LEFT JOIN pg_stat_statements pss ON psa.query = pss.query
            WHERE psa.datname = ANY($1)
                AND wh.wait_event IS NOT NULL
            ORDER BY wait_time_ms DESC
            LIMIT 100
            "

/-- SQL text from `SafeQueryExecutor` in `crates/query-engine/src/safe_queries.rs`. -/
def safeBlockingRdsSql : String := "
            WITH blocking_tree AS (
                SELECT
                    blockers.pid AS blocking_pid,
                    blockers.query AS blocking_query,
                    blockers.datname AS blocking_database,
                    blockers.usename AS blocking_user,
                    EXTRACT(EPOCH FROM (NOW() - blockers.query_start)) * 1000 AS blocking_duration_ms,
                    blocked.pid AS blocked_pid,
                    blocked.query AS blocked_query,
                    blocked.datname AS blocked_database,
                    blocked.usename AS blocked_user,
                    EXTRACT(EPOCH FROM (NOW() - blocked.query_start)) * 1000 AS blocked_duration_ms,
                    'Lock' AS lock_type
                FROM pg_stat_activity blockers
                JOIN pg_stat_activity blocked ON true
                WHERE blockers.pid = ANY(
                    SELECT blocking_pid 
                    FROM pg_locks 
                    WHERE NOT granted
                )
                AND blocked.pid = ANY(
                    SELECT pid 
                    FROM pg_locks 
                    WHERE NOT granted
                )
                AND blockers.pid != blocked.pid
                AND blockers.datname = ANY($1)
            )
            SELECT 
                blocking_pid,
                blocked_pid,
                LEFT(blocking_query, 4095) AS blocking_query,
                LEFT(blocked_query, 4095) AS blocked_query,
                blocking_database,
                blocked_database,
                blocking_user,
                blocked_user,
                blocking_duration_ms,
                blocked_duration_ms,
                lock_type,
                to_char(NOW() AT TIME ZONE 'UTC', 'YYYY-MM-DD\"T\"HH24:MI:SS\"Z\"') AS collection_timestamp
            FROM blocking_tree
            LIMIT 100
            "

/-- SQL text from `SafeQueryExecutor` in `crates/query-engine/src/safe_queries.rs`. -/
def safeBlockingV14Sql : String := "
            WITH blocking_tree AS (
                SELECT
                    blockers.pid AS blocking_pid,
                    blockers.query AS blocking_query,
                    blockers.datname AS blocking_database,
                    blockers.usename AS blocking_user,
                    EXTRACT(EPOCH FROM (NOW() - blockers.query_start)) * 1000 AS blocking_duration_ms,
                    blocked.pid AS blocked_pid,
                    blocked.query AS blocked_query,
                    blocked.datname AS blocked_database,
                    blocked.usename AS blocked_user,
                    EXTRACT(EPOCH FROM (NOW() - blocked.query_start)) * 1000 AS blocked_duration_ms,
                    blocked_locks.locktype AS lock_type
                FROM pg_locks blocked_locks
                JOIN pg_stat_activity blocked ON blocked.pid = blocked_locks.pid
                JOIN pg_locks blocking_locks ON 
                    blocking_locks.locktype = blocked_locks.locktype
                    AND blocking_locks.database IS NOT DISTINCT FROM blocked_locks.database
                    AND blocking_locks.relation IS NOT DISTINCT FROM blocked_locks.relation
                    AND blocking_locks.page IS NOT DISTINCT FROM blocked_locks.page
                    AND blocking_locks.tuple IS NOT DISTINCT FROM blocked_locks.tuple
                    AND blocking_locks.virtualxid IS NOT DISTINCT FROM blocked_locks.virtualxid
                    AND blocking_locks.transactionid IS NOT DISTINCT FROM blocked_locks.transactionid
                    AND blocking_locks.classid IS NOT DISTINCT FROM blocked_locks.classid
                    AND blocking_locks.objid IS NOT DISTINCT FROM blocked_locks.objid
                    AND blocking_locks.objsubid IS NOT DISTINCT FROM blocked_locks.objsubid
                    AND blocking_locks.pid != blocked_locks.pid
                JOIN pg_stat_activity blockers ON blockers.pid = blocking_locks.pid
                WHERE NOT blocked_locks.granted
                    AND blocking_locks.granted
                    AND blocked.datname = ANY($1)
            )
            SELECT 
                blocking_pid,
                blocked_pid,
                LEFT(blocking_query, 4095) AS blocking_query,
                LEFT(blocked_query, 4095) AS blocked_query,
                blocking_database,
                blocked_database,
                blocking_user,
                blocked_user,
                blocking_duration_ms,
                blocked_duration_ms,
                lock_type,
                to_char(NOW() AT TIME ZONE 'UTC', 'YYYY-MM-DD\"T\"HH24:MI:SS\"Z\"') AS collection_timestamp
            FROM blocking_tree
            LIMIT 100
            "

/-- SQL text from `SafeQueryExecutor` in `crates/query-engine/src/safe_queries.rs`. -/
def safeBlockingV12_13Sql : String := "
            WITH blocking_tree AS (
                SELECT
                    blockers.pid AS blocking_pid,
                    blockers.query AS blocking_query,
                    blockers.datname AS blocking_database,
                    blockers.usename AS blocking_user,
                    EXTRACT(EPOCH FROM (NOW() - blockers.query_start)) * 1000 AS blocking_duration_ms,
                    blocked.pid AS blocked_pid,
                    blocked.query AS blocked_query,
                    blocked.datname AS blocked_database,
                    blocked.usename AS blocked_user,
                    EXTRACT(EPOCH FROM (NOW() - blocked.query_start)) * 1000 AS blocked_duration_ms,
                    'Lock' AS lock_type
                FROM pg_stat_activity blockers
                JOIN pg_stat_activity blocked ON true
                WHERE blockers.pid IN (
                    SELECT DISTINCT blocking_pid 
                    FROM (
                        SELECT 
                            kl.pid AS blocking_pid,
                            bl.pid AS blocked_pid
                        FROM pg_locks bl
                        JOIN pg_locks kl ON 
                            kl.locktype = bl.locktype
                            AND kl.database IS NOT DISTINCT FROM bl.database
                            AND kl.relation IS NOT DISTINCT FROM bl.relation
                            AND kl.page IS NOT DISTINCT FROM bl.page
                            AND kl.tuple IS NOT DISTINCT FROM bl.tuple
                            AND kl.virtualxid IS NOT DISTINCT FROM bl.virtualxid
                            AND kl.transactionid IS NOT DISTINCT FROM bl.transactionid
                            AND kl.classid IS NOT DISTINCT FROM bl.classid
                            AND kl.objid IS NOT DISTINCT FROM bl.objid
                            AND kl.objsubid IS NOT DISTINCT FROM bl.objsubid
                            AND kl.pid != bl.pid
                        WHERE NOT bl.granted AND kl.granted
                    ) AS l
                )
                AND blocked.pid IN (
                    SELECT pid FROM pg_locks WHERE NOT granted
                )
                AND blockers.datname = ANY($1)
            )
            SELECT 
                blocking_pid,
                blocked_pid,
                LEFT(blocking_query, 4095) AS blocking_query,
                LEFT(blocked_query, 4095) AS blocked_query,
                blocking_database,
                blocked_database,
                blocking_user,
                blocked_user,
                blocking_duration_ms,
                blocked_duration_ms,
                lock_type,
                to_char(NOW() AT TIME ZONE 'UTC', 'YYYY-MM-DD\"T\"HH24:MI:SS\"Z\"') AS collection_timestamp
            FROM blocking_tree
            LIMIT 100
            "

/-- SQL text from `SafeQueryExecutor` in `crates/query-engine/src/safe_queries.rs`. -/
def safeIndividualRdsOrPre13Sql : String := "
            SELECT 
                psa.pid,
                pss.queryid AS query_id,
                LEFT(psa.query, 4095) AS query_text,
                psa.state,
                psa.wait_event_type,
                psa.wait_event,
                psa.usename,
                psa.datname AS database_name,
                to_char(psa.backend_start AT TIME ZONE 'UTC', 'YYYY-MM-DD\"T\"HH24:MI:SS\"Z\"') AS backend_start,
                to_char(psa.xact_start AT TIME ZONE 'UTC', 'YYYY-MM-DD\"T\"HH24:MI:SS\"Z\"') AS xact_start,
                to_char(psa.query_start AT TIME ZONE 'UTC', 'YYYY-MM-DD\"T\"HH24:MI:SS\"Z\"') AS query_start,
                to_char(psa.state_change AT TIME ZONE 'UTC', 'YYYY-MM-DD\"T\"HH24:MI:SS\"Z\"') AS state_change,
                psa.backend_type,
                to_char(NOW() AT TIME ZONE 'UTC', 'YYYY-MM-DD\"T\"HH24:MI:SS\"Z\"') AS collection_timestamp
            FROM pg_stat_activity psa
            LEFT JOIN pg_stat_statements pss ON psa.query = pss.query
            WHERE psa.datname = ANY($1)
                AND psa.query IS NOT NULL 
                AND psa.query != ''
                AND psa.state != 'idle'
            ORDER BY psa.query_start
            LIMIT 100
            "

/-- SQL text from `SafeQueryExecutor` in `crates/query-engine/src/safe_queries.rs`. -/
def safeIndividualV13Sql : String := "
            SELECT 
                psa.pid,
                pss.queryid AS query_id,
                LEFT(psa.query, 4095) AS query_text,
                psa.state,
                psa.wait_event_type,
                psa.wait_event,
                psa.usename,
                psa.datname AS database_name,
                to_char(psa.backend_start AT TIME ZONE 'UTC', 'YYYY-MM-DD\"T\"HH24:MI:SS\"Z\"') AS backend_start,
                to_char(psa.xact_start AT TIME ZONE 'UTC', 'YYYY-MM-DD\"T\"HH24:MI:SS\"Z\"') AS xact_start,
                to_char(psa.query_start AT TIME ZONE 'UTC', 'YYYY-MM-DD\"T\"HH24:MI:SS\"Z\"') AS query_start,
                to_char(psa.state_change AT TIME ZONE 'UTC', 'YYYY-MM-DD\"T\"HH24:MI:SS\"Z\"') AS state_change,
                psa.backend_type,
                to_char(NOW() AT TIME ZONE 'UTC', 'YYYY-MM-DD\"T\"HH24:MI:SS\"Z\"') AS collection_timestamp
            FROM pg_stat_activity psa
            LEFT JOIN pg_stat_statements pss ON 
                psa.query = pss.query 
                AND psa.datid = pss.dbid
            WHERE psa.datname = ANY($1)
                AND psa.query IS NOT NULL 
                AND psa.query != ''
                AND psa.state != 'idle'
                AND psa.backend_type = 'client backend'
            ORDER BY psa.query_start
            LIMIT 100
            "

/-!
## Error taxonomy and common parameters (`crates/core/src`)
-/

/-- Model of `CollectorError` from `crates/core/src/error.rs` (payloads reduced to
their message/value content). -/
inductive CollectorError where
  | DatabaseError (msg : String)
  | ConfigError (msg : String)
  | ExtensionNotAvailable (name : String)
  | UnsupportedVersion (version : Nat)
  | QueryError (msg : String)
  | CapabilityError (msg : String)
  | Timeout (secs : Nat)
  | General (msg : String)
  deriving DecidableEq, Repr

/-- Model of `CommonParameters` from `crates/core/src/types.rs` (`i32` thresholds
modelled as `Int`). -/
structure CommonParameters where
  version : Nat
  databases : String
  query_monitoring_count_threshold : Int
  query_monitoring_response_time_threshold : Int
  host : String
  port : String
  is_rds : Bool
  deriving DecidableEq, Repr

/-- Model of `CommonParameters::validate_count_threshold`: negative input falls
back to the default 20, input above 30 is clamped to 30. -/
def CommonParameters.validate_count_threshold (input : Int) : Int :=
  if input < 0 then 20
  else if input > 30 then 30
  else input

/-- Model of `CommonParameters::validate_response_threshold`: negative input falls
back to the default 500. -/
def CommonParameters.validate_response_threshold (input : Int) : Int :=
  if input < 0 then 500 else input

/-!
## `SafeQueryExecutor` (`crates/query-engine/src/safe_queries.rs`)

Each `execute_*` method picks one of the inline SQL texts (by version
and/or RDS flag) and executes it with `sqlx` bind parameters.  The
executed statement is modelled as the pair of the SQL text and the list
of bound values; the database itself is abstracted as a function from
that pair to a result.
-/

/-- One `sqlx` bind value: a `&[&str]` array bind, an integer bind, or
an `as f64` cast of an integer value. -/
inductive SqlBind where
  | strArray (values : List String)
  | int (value : Int)
  | floatOfInt (value : Int)
  deriving DecidableEq, Repr

/-- Model of `params.databases.split(',')`. -/
def splitDatabases (s : String) : List String := s.splitOn ","

/-- SQL text chosen by `SafeQueryExecutor::execute_slow_queries`:
`total_exec_time` dialect for `version >= 13`, the legacy `total_time`
dialect otherwise (all versions below 13, with no lower bound). -/
def safeSlowQueriesSql (version : Nat) : String :=
  if version ≥ 13 then safeSlowQueriesV13Sql else safeSlowQueriesLegacySql

/-- Bind list of `execute_slow_queries`: databases, count threshold,
response-time threshold (as `f64`), and the `LIMIT` (again the count
threshold). -/
def safeSlowQueriesBinds (params : CommonParameters) : List SqlBind :=
  [ .strArray (splitDatabases params.databases),
    .int params.query_monitoring_count_threshold,
    .floatOfInt params.query_monitoring_response_time_threshold,
    .int params.query_monitoring_count_threshold ]

/-- Model of `SafeQueryExecutor::execute_slow_queries`, with the database modelled
by `dbExec` (SQL text and binds in, rows or a driver error out). -/
def execute_slow_queries {α : Type}
    (dbExec : String → List SqlBind → Except CollectorError (List α))
    (params : CommonParameters) (version : Nat) :
    Except CollectorError (List α) :=
  dbExec (safeSlowQueriesSql version) (safeSlowQueriesBinds params)

/-- SQL text chosen by `SafeQueryExecutor::execute_wait_events`. -/
def safeWaitEventsSqlFor (is_rds : Bool) : String :=
  if is_rds then safeWaitEventsRdsSql else safeWaitEventsSql

/-- Model of `SafeQueryExecutor::execute_wait_events`. -/
def execute_wait_events {α : Type}
    (dbExec : String → List SqlBind → Except CollectorError (List α))
    (params : CommonParameters) (is_rds : Bool) :
    Except CollectorError (List α) :=
  dbExec (safeWaitEventsSqlFor is_rds) [.strArray (splitDatabases params.databases)]

/-- SQL text chosen by `SafeQueryExecutor::execute_blocking_sessions`. -/
def safeBlockingSqlFor (version : Nat) (is_rds : Bool) : String :=
  if is_rds then safeBlockingRdsSql
  else if version ≥ 14 then safeBlockingV14Sql
  else safeBlockingV12_13Sql

/-- Model of `SafeQueryExecutor::execute_blocking_sessions`. -/
def execute_blocking_sessions {α : Type}
    (dbExec : String → List SqlBind → Except CollectorError (List α))
    (params : CommonParameters) (version : Nat) (is_rds : Bool) :
    Except CollectorError (List α) :=
  dbExec (safeBlockingSqlFor version is_rds) [.strArray (splitDatabases params.databases)]

/-- SQL text chosen by `SafeQueryExecutor::execute_individual_queries`. -/
def safeIndividualSqlFor (version : Nat) (is_rds : Bool) : String :=
  if is_rds || version < 13 then safeIndividualRdsOrPre13Sql
  else safeIndividualV13Sql

/-- Model of `SafeQueryExecutor::execute_individual_queries`. -/
def execute_individual_queries {α : Type}
    (dbExec : String → List SqlBind → Except CollectorError (List α))
    (params : CommonParameters) (version : Nat) (is_rds : Bool) :
    Except CollectorError (List α) :=
  dbExec (safeIndividualSqlFor version is_rds) [.strArray (splitDatabases params.databases)]

/-- The full statement (SQL text, bound values) sent by
`execute_slow_queries`. -/
def safeSlowQueriesStmt (params : CommonParameters) (version : Nat) :
    String × List SqlBind :=
  (safeSlowQueriesSql version, safeSlowQueriesBinds params)

/-- The full statement sent by `execute_wait_events`. -/
def safeWaitEventsStmt (params : CommonParameters) (is_rds : Bool) :
    String × List SqlBind :=
  (safeWaitEventsSqlFor is_rds, [.strArray (splitDatabases params.databases)])

/-- The full statement sent by `execute_blocking_sessions`. -/
def safeBlockingStmt (params : CommonParameters) (version : Nat) (is_rds : Bool) :
    String × List SqlBind :=
  (safeBlockingSqlFor version is_rds, [.strArray (splitDatabases params.databases)])

/-- The full statement sent by `execute_individual_queries`. -/
def safeIndividualStmt (params : CommonParameters) (version : Nat) (is_rds : Bool) :
    String × List SqlBind :=
  (safeIndividualSqlFor version is_rds, [.strArray (splitDatabases params.databases)])

/-!
## `QueryEngine` (`crates/query-engine/src/engine.rs`)

`select_query_version` resolves a category key and version to a
registered template (or `UnsupportedVersion`); `format_query` splices a
`QueryParams` value into the template text by string replacement of the
`%s` and `%d` placeholders — this is the `OHICompatibleQueryExecutor`
dispatch path.
-/

/-- Rust `str::replace`: replace every non-overlapping occurrence of
`pat`, scanning left to right.  Implemented with an explicit fuel (the
input length bounds the number of steps, since the patterns used are
non-empty); on an empty pattern the model returns the string unchanged
(the source never replaces an empty pattern). -/
def replaceFuel (pat rep : List Char) : Nat → List Char → List Char
  | 0, s => s
  | _ + 1, [] => []
  | fuel + 1, c :: rest =>
    if pat.isPrefixOf (c :: rest) then
      rep ++ replaceFuel pat rep fuel ((c :: rest).drop pat.length)
    else
      c :: replaceFuel pat rep fuel rest

/-- Rust `str::replace` on strings. -/
def rustReplace (s pat rep : String) : String :=
  if pat.isEmpty then s
  else ⟨replaceFuel pat.data rep.data s.data.length s.data⟩

/-- Model of `QueryRegistry::new` + `QueryRegistry::get` as one lookup. -/
def queryRegistryGet (key : String) : Option String :=
  if key = "slow_queries_v12" then some SLOW_QUERIES_V12
  else if key = "slow_queries_v13+" then some SLOW_QUERIES_V13_ABOVE
  else if key = "wait_events" then some WAIT_EVENTS
  else if key = "wait_events_rds" then some WAIT_EVENTS_RDS
  else if key = "blocking_v12_13" then some BLOCKING_V12_13
  else if key = "blocking_v14+" then some BLOCKING_V14_ABOVE
  else if key = "blocking_rds" then some BLOCKING_RDS
  else if key = "individual_v12" then some INDIVIDUAL_V12
  else if key = "individual_v13+" then some INDIVIDUAL_V13_ABOVE
  else if key = "ash_sample" then some ASH_SAMPLE
  else if key = "plan_history" then some PLAN_HISTORY
  else if key = "buffer_stats_detail" then some BUFFER_STATS_DETAIL
  else none

/-- Model of `QueryEngine::select_query_version`: versions below 12 are
`UnsupportedVersion` errors for the three versioned categories. -/
def select_query_version (query_key : String) (version : Nat) :
    Except CollectorError String :=
  let versioned_key : Except CollectorError String :=
    if query_key = "slow_queries" then
      if version ≥ 13 then .ok "slow_queries_v13+"
      else if version = 12 then .ok "slow_queries_v12"
      else .error (.UnsupportedVersion version)
    else if query_key = "blocking" then
      if version ≥ 14 then .ok "blocking_v14+"
      else if version = 12 ∨ version = 13 then .ok "blocking_v12_13"
      else .error (.UnsupportedVersion version)
    else if query_key = "individual" then
      if version ≥ 13 then .ok "individual_v13+"
      else if version = 12 then .ok "individual_v12"
      else .error (.UnsupportedVersion version)
    else .ok query_key
  match versioned_key with
  | .error e => .error e
  | .ok k =>
    match queryRegistryGet k with
    | some q => .ok q
    | none => .error (.QueryError ("Query not found: " ++ k))

/-- Model of `QueryParams` from `crates/query-engine/src/engine.rs`. -/
inductive QueryParams where
  | SlowQueries (databases : String) (limit : Int)
  | WaitEvents (databases : String) (limit : Int)
  | Blocking (databases : String) (limit : Int)
  | Individual (databases : String) (limit : Int)
  | NoParams
  deriving DecidableEq, Repr

/-- Model of `QueryEngine::format_query`: splice the databases string and the
limit into the template text via `replace("%s", ..)` / `replace("%d", ..)`. -/
def format_query (query : String) (params : QueryParams) : String :=
  match params with
  | .SlowQueries databases limit =>
    rustReplace (rustReplace query "%s" databases) "%d" (toString limit)
  | .WaitEvents databases limit =>
    rustReplace (rustReplace query "%s" databases) "%d" (toString limit)
  | .Blocking databases limit =>
    rustReplace (rustReplace query "%s" databases) "%d" (toString limit)
  | .Individual databases limit =>
    rustReplace (rustReplace query "%s" databases) "%d" (toString limit)
  | .NoParams => query

/-- Model of `QueryParams::from_common_params`: the database list is quoted and
comma-joined by string formatting (`format!("'{}'",
params.databases.replace(',', "','"))`). -/
def from_common_params (params : CommonParameters) (query_type : String) :
    QueryParams :=
  let databases := "'" ++ rustReplace params.databases "," "','" ++ "'"
  if query_type = "slow_queries" then
    .SlowQueries databases params.query_monitoring_count_threshold
  else if query_type = "wait_events" then .WaitEvents databases 100
  else if query_type = "blocking" then .Blocking databases 100
  else if query_type = "individual" then .Individual databases 100
  else .NoParams

/-- The SQL text sent to the driver by `QueryEngine::execute_versioned`
(template selection followed by `format_query`). -/
def execute_versioned_sql (query_key : String) (version : Nat)
    (params : QueryParams) : Except CollectorError String :=
  (select_query_version query_key version).map (fun q => format_query q params)

/-!
## Extension manager (`crates/extensions/src/lib.rs`) and capability
detection (`src/src/collection_engine.rs`)

Each database round-trip is passed in as an `Except`-valued outcome:
`versionQ` is the `server_version_num` row (its `version` column is
nullable), `extQ` the `pg_extension` catalog rows, `rdsQ` the
`rds.superuser_reserved_connections` presence check, `superuserQ` the
nullable `is_superuser` row.
-/

/-- Model of `PgStatStatementsConfig` from `crates/extensions/src/lib.rs`. -/
structure PgStatStatementsConfig where
  version : String
  track : String
  max : Int
  deriving DecidableEq, Repr

/-- Model of `PgStatMonitorConfig` from `crates/extensions/src/lib.rs`. -/
structure PgStatMonitorConfig where
  version : String
  pgsm_normalized_query : Bool
  pgsm_enable_query_plan : Bool
  deriving DecidableEq, Repr

/-- Model of `PgWaitSamplingConfig` from `crates/extensions/src/lib.rs`
(`sample_period` in milliseconds). -/
structure PgWaitSamplingConfig where
  version : String
  sample_period_ms : Nat
  deriving DecidableEq, Repr

/-- Model of `ExtensionConfig` from `crates/extensions/src/lib.rs`. -/
structure ExtensionConfig where
  pg_stat_statements : Option PgStatStatementsConfig
  pg_stat_monitor : Option PgStatMonitorConfig
  pg_wait_sampling : Option PgWaitSamplingConfig
  deriving DecidableEq, Repr

/-- Model of `CompatibilityMatrix::is_compatible` (the source accepts every
version). -/
def is_compatible (_extension _version : String) : Bool := true

/-- Model of `ExtensionManager::detect_installed_extensions`: every catalog row
becomes an `ExtensionInfo` with `enabled: true`. -/
def detect_installed_extensions (rows : List (String × String)) : ExtMap :=
  rows.foldl (fun m r => m.insert r.1 { name := r.1, version := r.2, enabled := true })
    ExtMap.empty

/-- Model of `ExtensionManager::detect_and_configure`: a failing catalog query
propagates (`?`); otherwise the three recognised extensions are
configured from the installed set. -/
def detect_and_configure (extQ : Except CollectorError (List (String × String))) :
    Except CollectorError ExtensionConfig := do
  let rows ← extQ
  let installed := detect_installed_extensions rows
  let pss := (installed "pg_stat_statements").map
    (fun i => ({ version := i.version, track := "all", max := 10000 } : PgStatStatementsConfig))
  let psm :=
    match installed "pg_stat_monitor" with
    | some i =>
      if is_compatible "pg_stat_monitor" i.version then
        some ({ version := i.version, pgsm_normalized_query := true,
                pgsm_enable_query_plan := true } : PgStatMonitorConfig)
      else none
    | none => none
  let pws := (installed "pg_wait_sampling").map
    (fun i => ({ version := i.version, sample_period_ms := 10 } : PgWaitSamplingConfig))
  .ok { pg_stat_statements := pss, pg_stat_monitor := psm, pg_wait_sampling := pws }

/-- The extensions map built by
`UnifiedCollectionEngine::detect_capabilities` from the
`ExtensionConfig` (each present entry is inserted with `enabled: true`). -/
def buildCapabilityExtensions (cfg : ExtensionConfig) : ExtMap :=
  let m := ExtMap.empty
  let m := match cfg.pg_stat_statements with
    | some c => m.insert "pg_stat_statements"
        { name := "pg_stat_statements", version := c.version, enabled := true }
    | none => m
  let m := match cfg.pg_wait_sampling with
    | some c => m.insert "pg_wait_sampling"
        { name := "pg_wait_sampling", version := c.version, enabled := true }
    | none => m
  match cfg.pg_stat_monitor with
  | some c => m.insert "pg_stat_monitor"
      { name := "pg_stat_monitor", version := c.version, enabled := true }
  | none => m

/-- Model of `UnifiedCollectionEngine::detect_capabilities` from
`src/src/collection_engine.rs`: every sub-query failure propagates via
`?`; a NULL `version` column degrades to 12 (`unwrap_or(12)`) and a NULL
`is_superuser` row degrades to `false` (`unwrap_or(false)`);
`has_ebpf_support` is `cfg!(feature = "ebpf")`, i.e. `false` in the
default build. -/
def detect_capabilities
    (versionQ : Except CollectorError (Option Int))
    (extQ : Except CollectorError (List (String × String)))
    (rdsQ : Except CollectorError Bool)
    (superuserQ : Except CollectorError (Option Bool)) :
    Except CollectorError Capabilities := do
  let versionRow ← versionQ
  let version := (versionRow.getD 12).toNat
  let extConfig ← detect_and_configure extQ
  let is_rds ← rdsQ
  let extensions := buildCapabilityExtensions extConfig
  let superuserRow ← superuserQ
  .ok { version := version, is_rds := is_rds, extensions := extensions,
        has_superuser := superuserRow.getD false, has_ebpf_support := false }

/-!
## Orchestrators

`UnifiedCollectionEngine::collect_all_metrics`
(`src/src/collection_engine.rs`) propagates every category dispatch
failure with `?`; only the per-plan `get_execution_plan` failures inside
`collect_execution_plans` are caught (warned and skipped).  The mvp
engine's `collect_metrics`
(`database-intelligence-mvp/src/collection_engine.rs`) instead catches
category failures: database metrics, slow queries and wait events
degrade to an empty collection with `errors_encountered += 1`, while
locks and blocking sessions degrade silently (`unwrap_or_default`).
Row/record types are opaque type parameters; query-text sanitization,
PgBouncer/extended-metric merging and dimensional-metric recording
rewrite or append data without affecting which category collections
succeed and are outside the modelled slice.
-/

/-- The category collections of one `UnifiedMetrics` snapshot assembled
by `collect_all_metrics`. -/
structure UnifiedSnapshot (α β γ δ ε : Type) where
  slow_queries : List α
  blocking_sessions : List β
  wait_events : List γ
  individual_queries : List δ
  execution_plans : List ε
  deriving DecidableEq, Repr

/-- Model of `UnifiedCollectionEngine::collect_execution_plans`: iterate the first
10 individual queries; each per-query plan failure is warned and
skipped, never propagated. -/
def collect_execution_plans {ε : Type}
    (planQ : List (Except CollectorError ε)) : List ε :=
  (planQ.take 10).filterMap (fun r =>
    match r with
    | .ok p => some p
    | .error _ => none)

/-- Model of `UnifiedCollectionEngine::collect_all_metrics`
(`src/src/collection_engine.rs`), from the point where capabilities are
available: slow queries run only when the extensions map contains the
`pg_stat_statements` key; every category dispatch failure propagates via
`?` and aborts the cycle. -/
def collect_all_metrics {α β γ δ ε : Type} (caps : Capabilities)
    (slowQ : Except CollectorError (List α))
    (blockingQ : Except CollectorError (List β))
    (waitQ : Except CollectorError (List γ))
    (individualQ : Except CollectorError (List δ))
    (planQ : List (Except CollectorError ε)) :
    Except CollectorError (UnifiedSnapshot α β γ δ ε) := do
  let slow_queries ←
    if caps.extensions.containsKey "pg_stat_statements" then slowQ else .ok []
  let blocking_sessions ← blockingQ
  let wait_events ← waitQ
  let individual_queries ← individualQ
  let execution_plans :=
    if individual_queries.isEmpty then [] else collect_execution_plans planQ
  .ok { slow_queries := slow_queries, blocking_sessions := blocking_sessions,
        wait_events := wait_events, individual_queries := individual_queries,
        execution_plans := execution_plans }

/-- The category collections and error counter of one mvp
`UnifiedMetrics`. -/
structure MvpMetrics (α β γ δ ε : Type) where
  database_metrics : List α
  slow_queries : List β
  wait_events : List γ
  locks : List δ
  blocking_sessions : List ε
  errors_encountered : Nat
  deriving DecidableEq, Repr

/-- Model of `unwrap_or_else` with empty vector plus
`collection_stats.errors_encountered += 1`. -/
def degradeCounted {α : Type} : Except String (List α) → List α × Nat
  | .ok v => (v, 0)
  | .error _ => ([], 1)

/-- Model of `unwrap_or_default`. -/
def unwrapOrDefault {α : Type} : Except String (List α) → List α
  | .ok v => v
  | .error _ => []

/-- Model of `UnifiedCollectionEngine::collect_metrics`
(`database-intelligence-mvp/src/collection_engine.rs`): capability
detection failure propagates (`?`); the five joined category collectors
degrade — the first three with an error count, locks and blocking
sessions silently.  `errors0` is the engine's running
`errors_encountered` counter. -/
def mvp_collect_metrics {κ α β γ δ ε : Type}
    (capabilitiesQ : Except String κ)
    (databaseQ : Except String (List α))
    (slowQ : Except String (List β))
    (waitQ : Except String (List γ))
    (locksQ : Except String (List δ))
    (blockingQ : Except String (List ε))
    (errors0 : Nat) :
    Except String (MvpMetrics α β γ δ ε) := do
  let _capabilities ← capabilitiesQ
  let (database_metrics, e1) := degradeCounted databaseQ
  let (slow_queries, e2) := degradeCounted slowQ
  let (wait_events, e3) := degradeCounted waitQ
  let locks := unwrapOrDefault locksQ
  let blocking_sessions := unwrapOrDefault blockingQ
  .ok { database_metrics := database_metrics, slow_queries := slow_queries,
        wait_events := wait_events, locks := locks,
        blocking_sessions := blocking_sessions,
        errors_encountered := errors0 + e1 + e2 + e3 }

/-!
## Shared fixtures and helper lemmas
-/

/-- A capability set with only `pg_stat_statements` installed (enabled). -/
def extsPssOnly : ExtMap :=
  ExtMap.empty.insert "pg_stat_statements"
    { name := "pg_stat_statements", version := "1.9", enabled := true }

/-- Model of `pg_stat_statements` recorded but with `enabled: false`. -/
def extsPssDisabled : ExtMap :=
  ExtMap.empty.insert "pg_stat_statements"
    { name := "pg_stat_statements", version := "1.9", enabled := false }

/-- A managed (RDS) PostgreSQL 15 instance with `pg_stat_statements`. -/
def capsPssRds : Capabilities :=
  { version := 15, is_rds := true, extensions := extsPssOnly,
    has_superuser := false, has_ebpf_support := false }

/-- A managed (RDS) PostgreSQL 15 instance with an empty extension map. -/
def capsEmptyRds15 : Capabilities :=
  { version := 15, is_rds := true, extensions := ExtMap.empty,
    has_superuser := false, has_ebpf_support := false }

/-- A self-hosted PostgreSQL 15 instance with `pg_stat_statements`. -/
def capsPss : Capabilities :=
  { version := 15, is_rds := false, extensions := extsPssOnly,
    has_superuser := false, has_ebpf_support := false }

/-- A self-hosted PostgreSQL 15 instance whose `pg_stat_statements` entry
is present but disabled. -/
def capsPssDisabled : Capabilities :=
  { version := 15, is_rds := false, extensions := extsPssDisabled,
    has_superuser := false, has_ebpf_support := false }

/-- A self-hosted PostgreSQL 15 instance with no extensions. -/
def capsNoExt : Capabilities :=
  { version := 15, is_rds := false, extensions := ExtMap.empty,
    has_superuser := false, has_ebpf_support := false }

/-- Common parameters monitoring database `db1`. -/
def paramsDb1 : CommonParameters :=
  { version := 12, databases := "db1", query_monitoring_count_threshold := 20,
    query_monitoring_response_time_threshold := 500, host := "localhost",
    port := "5432", is_rds := false }

/-- Common parameters monitoring database `db2` (identical to
`paramsDb1` except for the database list). -/
def paramsDb2 : CommonParameters := { paramsDb1 with databases := "db2" }

lemma extEnabled_empty (x : String) : extEnabled ExtMap.empty x = false := rfl

lemma has_extension_mk (v : Nat) (rds hsu hebpf : Bool) (m : ExtMap) (x : String) :
    Capabilities.has_extension ⟨v, rds, m, hsu, hebpf⟩ x = extEnabled m x := rfl

/-!
## C3, C4, C9 — eligibility gating
-/

/-- Claim C3 counterexample.  The claim says that with an empty extensions
map, for all combinations of version / is_managed / has_superuser, no
category except blocking-sessions (and that only on 12/13) is eligible.
On a managed (RDS) version-15 instance with an empty extension map,
`Capabilities::supports_individual_queries` nevertheless returns `true`
(the RDS flag alone suffices), so the individual-queries category is
admitted. -/
theorem c3_counterexample :
    capsEmptyRds15.extensions "pg_stat_monitor" = none ∧
    capsEmptyRds15.version = 15 ∧
    capsEmptyRds15.supports_individual_queries = true := by
  refine ⟨rfl, rfl, rfl⟩

/-- Claim C3, amended.  For every `Capabilities` value with an empty
extensions map: wait events are never eligible; blocking sessions are
eligible exactly on major versions 12 and 13; individual queries are
eligible exactly when the managed-service flag is set (the one deviation
from the claim); and the `OHIValidations` checks admit nothing except
blocking sessions on 12/13. -/
theorem c3_amended (version : Nat) (is_rds has_superuser has_ebpf : Bool) :
    (Capabilities.supports_wait_events
      ⟨version, is_rds, ExtMap.empty, has_superuser, has_ebpf⟩ = false) ∧
    (Capabilities.supports_blocking_sessions
      ⟨version, is_rds, ExtMap.empty, has_superuser, has_ebpf⟩ = true ↔
        version = 12 ∨ version = 13) ∧
    (Capabilities.supports_individual_queries
      ⟨version, is_rds, ExtMap.empty, has_superuser, has_ebpf⟩ = is_rds) ∧
    (check_slow_query_metrics_fetch_eligibility ExtMap.empty = false) ∧
    (check_wait_event_metrics_fetch_eligibility ExtMap.empty = false) ∧
    (check_individual_query_metrics_fetch_eligibility ExtMap.empty = false) ∧
    (check_blocking_session_metrics_fetch_eligibility ExtMap.empty version = true ↔
        version = 12 ∨ version = 13) := by
  refine ⟨rfl, ?_, rfl, rfl, rfl, rfl, ?_⟩
  · unfold Capabilities.supports_blocking_sessions
    by_cases h : version = 12 ∨ version = 13
    · simp [h]
    · simp [h, has_extension_mk, extEnabled_empty]
  · unfold check_blocking_session_metrics_fetch_eligibility
    by_cases h : version = 12 ∨ version = 13
    · simp [h]
    · simp [h, extEnabled_empty]

/-- Claim C3 witness. for the amended claim's biconditionals, at version 12
on a managed instance. -/
theorem c3_witness :
    Capabilities.supports_blocking_sessions ⟨12, true, ExtMap.empty, false, false⟩ = true ∧
    Capabilities.supports_individual_queries ⟨12, true, ExtMap.empty, false, false⟩ = true :=
  ⟨(c3_amended 12 true false false).2.1.mpr (Or.inl rfl),
   (c3_amended 12 true false false).2.2.1⟩

/-- Claim C4 counterexample.  The claim's biconditional fails for the
`OHIValidations` wait-event gate: on a managed instance with
`pg_stat_statements` enabled and no wait-sampling extension the claimed
condition holds (statement statistics AND managed flag) — and indeed
`Capabilities::supports_wait_events` returns `true` — yet
`OHIValidations::check_wait_event_metrics_fetch_eligibility`, which
never consults the managed flag, returns `false`. -/
theorem c4_counterexample :
    check_wait_event_metrics_fetch_eligibility capsPssRds.extensions = false ∧
    capsPssRds.has_extension "pg_stat_statements" = true ∧
    capsPssRds.is_rds = true ∧
    capsPssRds.supports_wait_events = true := by
  refine ⟨by decide, by decide, rfl, by decide⟩

/-- Claim C4, amended.  `Capabilities::supports_wait_events` satisfies the
claimed biconditional (statement statistics AND (wait sampling OR
managed)); the `OHIValidations` wait-event gate instead requires
statement statistics AND wait sampling, taking no managed-service input
at all. -/
theorem c4_amended (caps : Capabilities) (m : ExtMap) :
    (caps.supports_wait_events = true ↔
      (caps.has_extension "pg_stat_statements" = true ∧
       (caps.has_extension "pg_wait_sampling" = true ∨ caps.is_rds = true))) ∧
    (check_wait_event_metrics_fetch_eligibility m = true ↔
      (extEnabled m "pg_stat_statements" = true ∧
       extEnabled m "pg_wait_sampling" = true)) := by
  constructor
  · simp [Capabilities.supports_wait_events, Bool.and_eq_true, Bool.or_eq_true]
  · simp [check_wait_event_metrics_fetch_eligibility, Bool.and_eq_true]

/-- Claim C9 counterexample.  An extension recorded with `enabled: false`
is *not* indistinguishable from an absent one at the collection
boundary: `collect_all_metrics` gates slow-query collection on
`extensions.contains_key("pg_stat_statements")`, so with the disabled
entry present a failing slow-query dispatch aborts the cycle, while with
the entry absent the same dispatch is never consulted and the cycle
succeeds. -/
theorem c9_counterexample :
    collect_all_metrics (α := Unit) (β := Unit) (γ := Unit) (δ := Unit) (ε := Unit)
      capsPssDisabled (.error (.QueryError "boom")) (.ok []) (.ok []) (.ok []) []
      = .error (.QueryError "boom") ∧
    collect_all_metrics (α := Unit) (β := Unit) (γ := Unit) (δ := Unit) (ε := Unit)
      capsNoExt (.error (.QueryError "boom")) (.ok []) (.ok []) (.ok []) []
      = .ok ⟨[], [], [], [], []⟩ ∧
    capsPssDisabled.has_extension "pg_stat_statements" =
      capsNoExt.has_extension "pg_stat_statements" := by
  refine ⟨rfl, rfl, rfl⟩

/-- Claim C9, amended.  Every *eligibility* decision — `has_extension`,
the three `supports_*` gates and the four `OHIValidations` checks —
yields the same result whether an extension is recorded with
`enabled: false` or is entirely absent; but the orchestrator's
slow-query *collection* gate (`contains_key` in `collect_all_metrics`)
distinguishes the two. -/
theorem c9_amended (m : ExtMap) (name : String) (info : ExtensionInfo)
    (x : String) (v : Nat) (rds hsu hebpf : Bool)
    (hdis : info.enabled = false) :
    (Capabilities.has_extension ⟨v, rds, m.insert name info, hsu, hebpf⟩ x =
     Capabilities.has_extension ⟨v, rds, m.remove name, hsu, hebpf⟩ x) ∧
    (Capabilities.supports_wait_events ⟨v, rds, m.insert name info, hsu, hebpf⟩ =
     Capabilities.supports_wait_events ⟨v, rds, m.remove name, hsu, hebpf⟩) ∧
    (Capabilities.supports_blocking_sessions ⟨v, rds, m.insert name info, hsu, hebpf⟩ =
     Capabilities.supports_blocking_sessions ⟨v, rds, m.remove name, hsu, hebpf⟩) ∧
    (Capabilities.supports_individual_queries ⟨v, rds, m.insert name info, hsu, hebpf⟩ =
     Capabilities.supports_individual_queries ⟨v, rds, m.remove name, hsu, hebpf⟩) ∧
    (check_slow_query_metrics_fetch_eligibility (m.insert name info) =
     check_slow_query_metrics_fetch_eligibility (m.remove name)) ∧
    (check_wait_event_metrics_fetch_eligibility (m.insert name info) =
     check_wait_event_metrics_fetch_eligibility (m.remove name)) ∧
    (check_blocking_session_metrics_fetch_eligibility (m.insert name info) v =
     check_blocking_session_metrics_fetch_eligibility (m.remove name) v) ∧
    (check_individual_query_metrics_fetch_eligibility (m.insert name info) =
     check_individual_query_metrics_fetch_eligibility (m.remove name)) ∧
    ExtMap.containsKey (m.insert name info) name = true ∧
    ExtMap.containsKey (m.remove name) name = false := by
  have key : ∀ y : String, extEnabled (m.insert name info) y = extEnabled (m.remove name) y := by
    intro y
    by_cases hy : y = name
    · simp [extEnabled, ExtMap.insert, ExtMap.remove, hy, hdis]
    · simp [extEnabled, ExtMap.insert, ExtMap.remove, hy]
  refine ⟨key x, ?_, ?_, ?_, key _, ?_, ?_, key _, ?_, ?_⟩
  · simp only [Capabilities.supports_wait_events, has_extension_mk, key]
  · simp only [Capabilities.supports_blocking_sessions, has_extension_mk, key]
  · simp only [Capabilities.supports_individual_queries, has_extension_mk, key]
  · simp only [check_wait_event_metrics_fetch_eligibility, key]
  · simp only [check_blocking_session_metrics_fetch_eligibility, key]
  · simp [ExtMap.containsKey, ExtMap.insert]
  · simp [ExtMap.containsKey, ExtMap.remove]

/-- Claim C9 witness.: the amended statement instantiated with a disabled
`pg_stat_statements` entry over the empty map on a version-15 instance. -/
theorem c9_witness :
    ExtensionInfo.enabled ⟨"pg_stat_statements", "1.9", false⟩ = false ∧
    (Capabilities.supports_wait_events
      ⟨15, false, ExtMap.empty.insert "pg_stat_statements"
        ⟨"pg_stat_statements", "1.9", false⟩, false, false⟩ =
     Capabilities.supports_wait_events
      ⟨15, false, ExtMap.empty.remove "pg_stat_statements", false, false⟩) :=
  ⟨rfl, (c9_amended ExtMap.empty "pg_stat_statements"
    ⟨"pg_stat_statements", "1.9", false⟩ "pg_stat_statements" 15 false false false
    rfl).2.1⟩

/-!
## C1, C2 — failure isolation of the orchestrator and the probe
-/

/-- Claim C1 counterexample.  In `UnifiedCollectionEngine::collect_all_metrics`
(`src/src/collection_engine.rs`) every category dispatch failure is
propagated with `?`: with `pg_stat_statements` available, a slow-query
dispatch timeout aborts the whole cycle with an error — no snapshot is
returned at all, so neither an empty slow-query collection nor the other
categories' collections survive. -/
theorem c1_counterexample :
    collect_all_metrics (α := Unit) (β := Unit) (γ := Unit) (δ := Unit) (ε := Unit)
      capsPss (.error (.Timeout 30)) (.ok []) (.ok []) (.ok []) []
      = .error (.Timeout 30) := rfl

/-- Claim C1, amended.  The mvp engine's `collect_metrics` does satisfy
the claim's shape: with capabilities detected, a failing category query
degrades to an empty collection for exactly that category, the other
categories' collections are returned unchanged, and the error counter
is incremented for database-metric / slow-query / wait-event failures
(locks and blocking sessions degrade silently, with no error recorded);
the unified engine's `collect_all_metrics` instead propagates any
category failure and aborts the cycle. -/
theorem c1_amended {κ α β γ δ ε : Type} (caps : κ) (e : String)
    (dbv : List α) (sqv : List β) (wev : List γ) (lkv : List δ) (bsv : List ε)
    (errs : Nat) :
    (mvp_collect_metrics (α := α) (.ok caps) (.error e) (.ok sqv) (.ok wev) (.ok lkv) (.ok bsv) errs
      = .ok ⟨[], sqv, wev, lkv, bsv, errs + 1⟩) ∧
    (mvp_collect_metrics (β := β) (.ok caps) (.ok dbv) (.error e) (.ok wev) (.ok lkv) (.ok bsv) errs
      = .ok ⟨dbv, [], wev, lkv, bsv, errs + 1⟩) ∧
    (mvp_collect_metrics (γ := γ) (.ok caps) (.ok dbv) (.ok sqv) (.error e) (.ok lkv) (.ok bsv) errs
      = .ok ⟨dbv, sqv, [], lkv, bsv, errs + 1⟩) ∧
    (mvp_collect_metrics (δ := δ) (.ok caps) (.ok dbv) (.ok sqv) (.ok wev) (.error e) (.ok bsv) errs
      = .ok ⟨dbv, sqv, wev, [], bsv, errs⟩) ∧
    (mvp_collect_metrics (ε := ε) (.ok caps) (.ok dbv) (.ok sqv) (.ok wev) (.ok lkv) (.error e) errs
      = .ok ⟨dbv, sqv, wev, lkv, [], errs⟩) ∧
    (∀ (er : CollectorError) (bq : Except CollectorError (List β))
        (wq : Except CollectorError (List γ)) (iq : Except CollectorError (List δ))
        (pq : List (Except CollectorError ε)),
      collect_all_metrics (α := α) capsPss (.error er) bq wq iq pq = .error er) := by
  refine ⟨rfl, rfl, rfl, rfl, rfl, fun er bq wq iq pq => rfl⟩

/-- Claim C2 counterexample.  In
`UnifiedCollectionEngine::detect_capabilities` a failure of the
extension-catalog query, or of the managed-service heuristic, is
propagated with `?` and aborts the instance's cycle — neither degrades
to an empty extension set / `is_managed = false` as claimed. -/
theorem c2_counterexample :
    detect_capabilities (.ok (some 15)) (.error (.QueryError "boom"))
      (.ok false) (.ok (some false)) = .error (.QueryError "boom") ∧
    detect_capabilities (.ok (some 15)) (.ok []) (.error (.QueryError "boom"))
      (.ok (some false)) = .error (.QueryError "boom") := ⟨rfl, rfl⟩

/-- Claim C2, amended.  In `detect_capabilities`, a failure of *any* of
the four sub-queries — server version, extension catalog,
managed-service heuristic, superuser check — propagates and aborts the
instance's cycle; only NULL *rows* degrade: a NULL version column falls
back to major version 12 and a NULL `is_superuser` row to `false`. -/
theorem c2_amended (e : CollectorError)
    (extQ : Except CollectorError (List (String × String)))
    (rdsQ : Except CollectorError Bool)
    (suQ : Except CollectorError (Option Bool)) :
    (detect_capabilities (.error e) extQ rdsQ suQ = .error e) ∧
    (∀ v, detect_capabilities (.ok v) (.error e) rdsQ suQ = .error e) ∧
    (∀ v rows, detect_capabilities (.ok v) (.ok rows) (.error e) suQ = .error e) ∧
    (∀ v rows r, detect_capabilities (.ok v) (.ok rows) (.ok r) (.error e) = .error e) ∧
    (∀ r, detect_capabilities (.ok none) (.ok []) (.ok r) (.ok none) =
      .ok { version := 12, is_rds := r, extensions := ExtMap.empty,
            has_superuser := false, has_ebpf_support := false }) := by
  refine ⟨rfl, fun v => rfl, fun v rows => rfl, fun v rows r => rfl, fun r => rfl⟩

/-!
## C6 — unknown / unsupported versions
-/

/-- Claim C6 counterexample.  The probe *does* substitute a default: a NULL
`server_version_num` row yields capabilities with major version 12
(`unwrap_or(12)`).  And `SafeQueryExecutor::execute_slow_queries` does
*not* fail with `UnsupportedVersion` below 12: at version 11 it selects
the legacy (`total_time`) dialect and executes it. -/
theorem c6_counterexample :
    detect_capabilities (.ok none) (.ok []) (.ok false) (.ok (some false)) =
      .ok { version := 12, is_rds := false, extensions := ExtMap.empty,
            has_superuser := false, has_ebpf_support := false } ∧
    safeSlowQueriesSql 11 = safeSlowQueriesLegacySql ∧
    execute_slow_queries (fun _ _ => .ok ([] : List Unit)) paramsDb1 11 = .ok [] :=
  ⟨rfl, rfl, rfl⟩

/-- Claim C6, amended.  A NULL version row is defaulted to major version
12 by the probe; `SafeQueryExecutor::execute_slow_queries` selects the
legacy (`total_time`) dialect for *every* version below 13 — including
versions below 12 — and the `total_exec_time` dialect from 13 on, never
returning `UnsupportedVersion`; only `QueryEngine::select_query_version`
rejects versions below 12 with `UnsupportedVersion`. -/
theorem c6_amended :
    (∀ (extRows : List (String × String)) (r : Bool) (su : Option Bool),
      (detect_capabilities (.ok none) (.ok extRows) (.ok r) (.ok su)).map
        (fun c => c.version) = .ok 12) ∧
    (∀ v, v < 13 → safeSlowQueriesSql v = safeSlowQueriesLegacySql) ∧
    (∀ v, 13 ≤ v → safeSlowQueriesSql v = safeSlowQueriesV13Sql) ∧
    (∀ v, v < 12 →
      select_query_version "slow_queries" v = .error (.UnsupportedVersion v)) := by
  refine ⟨fun extRows r su => rfl, ?_, ?_, ?_⟩
  · intro v hv
    simp [safeSlowQueriesSql, Nat.not_le.mpr hv]
  · intro v hv
    simp [safeSlowQueriesSql, hv]
  · intro v hv
    have h13 : ¬ (13 ≤ v) := by omega
    have h12 : v ≠ 12 := by omega
    simp [select_query_version, h13, h12]

/-- Claim C6 witness. for the amended claim, at versions 11 and 13. -/
theorem c6_witness :
    safeSlowQueriesSql 11 = safeSlowQueriesLegacySql ∧
    safeSlowQueriesSql 13 = safeSlowQueriesV13Sql ∧
    select_query_version "slow_queries" 11 = .error (.UnsupportedVersion 11) :=
  ⟨c6_amended.2.1 11 (by decide), c6_amended.2.2.1 13 (by decide),
   c6_amended.2.2.2 11 (by decide)⟩

/-!
## C5, C10 — plan-regression cache
-/

lemma lruRemove_of_lookup_none {α : Type} (l : List (String × α)) (k : String)
    (h : lruLookup l k = none) : lruRemove l k = l := by
  induction l with
  | nil => rfl
  | cons a rest ih =>
    obtain ⟨k', v⟩ := a
    by_cases hk : k' = k
    · simp [lruLookup, hk] at h
    · simp only [lruLookup, hk, if_false] at h
      simp [lruRemove, hk, ih h]

lemma lruLookup_cons_self {α : Type} (k : String) (v : α)
    (rest : List (String × α)) : lruLookup ((k, v) :: rest) k = some v := by
  simp [lruLookup]

lemma LruCache.put_cap {α : Type} (c : LruCache α) (k : String) (v : α) :
    (c.put k v).cap = c.cap := rfl

lemma LruCache.lookup_put_self {α : Type} (c : LruCache α) (k : String) (v : α)
    (hcap : 1 ≤ c.cap) : lruLookup (c.put k v).entries k = some v := by
  unfold LruCache.put
  cases hrem : lruRemove c.entries k with
  | nil =>
    have hc : ¬ (c.cap < 1) := by omega
    simp [hrem, hc, lruLookup]
  | cons a rest =>
    simp only [hrem]
    split <;> simp [List.dropLast, lruLookup]

lemma PlanCache.check_regression_miss (c : PlanCache) (id h : String) (t : Int)
    (hl : lruLookup c.cache.entries id = none) :
    c.check_regression id h t = (false, ⟨c.cache.put id ⟨h, 0, t, 0⟩⟩) := by
  unfold PlanCache.check_regression LruCache.get
  simp [hl]

lemma PlanCache.check_regression_hit_ne (c : PlanCache) (id h : String)
    (t : Int) (ex : PlanFingerprint)
    (hl : lruLookup c.cache.entries id = some ex) (hne : ex.hash ≠ h) :
    c.check_regression id h t =
      (true, ⟨LruCache.put ⟨(id, ex) :: lruRemove c.cache.entries id, c.cache.cap⟩
        id ⟨h, 0, t, 0⟩⟩) := by
  unfold PlanCache.check_regression LruCache.get
  simp [hl, hne]

lemma PlanCache.check_regression_hit_eq (c : PlanCache) (id h : String)
    (t : Int) (ex : PlanFingerprint)
    (hl : lruLookup c.cache.entries id = some ex) (heq : ex.hash = h) :
    c.check_regression id h t =
      (false, ⟨⟨(id, ex) :: lruRemove c.cache.entries id, c.cache.cap⟩⟩) := by
  unfold PlanCache.check_regression LruCache.get
  simp [hl, heq]

/-- Claim C5.  For any cache state without an entry for `id` (and a
positive capacity, as in the engine's `PlanCache::new(10000)`), with
`h1 ≠ h2`: the first `check_regression(id, h1)` returns `false`, a
subsequent `check_regression(id, h2)` returns `true`, and a further
`check_regression(id, h2)` returns `false` — first observation is never
a regression, and a regression is declared exactly when the new hash
differs from the stored one. -/
theorem c5_check_and_update (cache : PlanCache) (id h1 h2 : String)
    (t1 t2 t3 : Int) (hne : h1 ≠ h2)
    (hnone : cache.cache.peek id = none) (hcap : 1 ≤ cache.cache.cap) :
    (cache.check_regression id h1 t1).1 = false ∧
    (((cache.check_regression id h1 t1).2).check_regression id h2 t2).1 = true ∧
    (((((cache.check_regression id h1 t1).2).check_regression id h2 t2).2).check_regression
      id h2 t3).1 = false := by
  have hlook : lruLookup cache.cache.entries id = none := hnone
  have fne : (⟨h1, 0, t1, 0⟩ : PlanFingerprint).hash ≠ h2 := hne
  have feq : (⟨h2, 0, t2, 0⟩ : PlanFingerprint).hash = h2 := rfl
  -- First call: miss, store h1, return false.
  have step1 := cache.check_regression_miss id h1 t1 hlook
  -- Second call: hit with h1 ≠ h2, overwrite with h2, return true.
  have hlook1 : lruLookup ((cache.check_regression id h1 t1).2).cache.entries id =
      some ⟨h1, 0, t1, 0⟩ := by
    rw [step1]
    exact cache.cache.lookup_put_self id ⟨h1, 0, t1, 0⟩ hcap
  have step2 := PlanCache.check_regression_hit_ne
    ((cache.check_regression id h1 t1).2) id h2 t2 ⟨h1, 0, t1, 0⟩ hlook1 fne
  -- Third call: hit with h2 = h2, return false.
  have hcap1 : 1 ≤ ((cache.check_regression id h1 t1).2).cache.cap := by
    rw [step1]
    exact hcap
  have hlook2 : lruLookup
      ((((cache.check_regression id h1 t1).2).check_regression id h2 t2).2).cache.entries id =
      some ⟨h2, 0, t2, 0⟩ := by
    rw [step2]
    exact LruCache.lookup_put_self
      (⟨(id, (⟨h1, 0, t1, 0⟩ : PlanFingerprint)) ::
          lruRemove ((cache.check_regression id h1 t1).2).cache.entries id,
        ((cache.check_regression id h1 t1).2).cache.cap⟩ : LruCache PlanFingerprint)
      id ⟨h2, 0, t2, 0⟩ hcap1
  have step3 := PlanCache.check_regression_hit_eq
    ((((cache.check_regression id h1 t1).2).check_regression id h2 t2).2)
    id h2 t3 ⟨h2, 0, t2, 0⟩ hlook2 feq
  exact ⟨by rw [step1], by rw [step2], by rw [step3]⟩

/-- Claim C5 witness.: the three-call sequence on a fresh
`PlanCache::new(10000)` with identity `q1` and hashes `a` ≠ `b`. -/
theorem c5_witness :
    ((PlanCache.new 10000).check_regression "q1" "a" 0).1 = false ∧
    ((((PlanCache.new 10000).check_regression "q1" "a" 0).2).check_regression "q1" "b" 1).1 = true ∧
    ((((((PlanCache.new 10000).check_regression "q1" "a" 0).2).check_regression "q1" "b" 1).2).check_regression
      "q1" "b" 2).1 = false :=
  c5_check_and_update (PlanCache.new 10000) "q1" "a" "b" 0 1 2
    (by decide) rfl (by decide)

/-- Claim C10.  When `check_regression` reports a regression, the cache
entry has already been overwritten with the new hash, so
`get_previous_hash` on the post-call cache returns the *new* hash — and
therefore the `previous_plan_hash` recorded on the emitted
`ExecutionPlanMetric` equals the new plan's own hash. -/
theorem c10_previous_hash_overwritten (cache : PlanCache) (id h : String)
    (now : Int) (hcap : 1 ≤ cache.cache.cap)
    (hreg : (cache.check_regression id h now).1 = true) :
    (cache.check_regression id h now).2.get_previous_hash id = some h ∧
    reported_previous_plan_hash cache id h now = some h := by
  have main : (cache.check_regression id h now).2.get_previous_hash id = some h := by
    unfold PlanCache.check_regression LruCache.get at hreg ⊢
    cases hlook : lruLookup cache.cache.entries id with
    | none => simp [hlook] at hreg
    | some existing =>
      by_cases hne : existing.hash ≠ h
      · simp only [hlook, hne, ite_true, if_pos]
        unfold PlanCache.get_previous_hash LruCache.peek
        have := LruCache.lookup_put_self
          ({ cache.cache with entries := (id, existing) :: lruRemove cache.cache.entries id })
          id (⟨h, 0, now, 0⟩ : PlanFingerprint) hcap
        simp [hne, this]
      · simp [hlook, hne] at hreg
  refine ⟨main, ?_⟩
  unfold reported_previous_plan_hash
  simp [hreg, main]

/-- Claim C10 witness.: a cache holding `(q1 ↦ old)` at capacity 10000;
`check_regression(q1, new)` reports a regression and the reported
previous hash is `new` itself. -/
theorem c10_witness :
    ((PlanCache.mk ⟨[("q1", ⟨"old", 0, 0, 0⟩)], 10000⟩).check_regression "q1" "new" 5).2.get_previous_hash
      "q1" = some "new" ∧
    reported_previous_plan_hash (PlanCache.mk ⟨[("q1", ⟨"old", 0, 0, 0⟩)], 10000⟩)
      "q1" "new" 5 = some "new" :=
  c10_previous_hash_overwritten (PlanCache.mk ⟨[("q1", ⟨"old", 0, 0, 0⟩)], 10000⟩)
    "q1" "new" 5 (by decide) (by decide)

/-!
## C8 — sampler ring-buffer bound
-/

lemma insertStep_length_le (max : Nat) (buf : List ASHSample) (s : ASHSample)
    (h : buf.length ≤ max) :
    (if max < (buf ++ [s]).length then (buf ++ [s]).drop 1 else buf ++ [s]).length
      ≤ max := by
  split
  · simpa using h
  · next hc => exact Nat.not_lt.mp hc

lemma insertSamples_length_le (max : Nat) (new : List ASHSample) :
    ∀ buf : List ASHSample, buf.length ≤ max →
      (insertSamples max buf new).length ≤ max := by
  induction new with
  | nil => intro buf h; exact h
  | cons s rest ih =>
    intro buf h
    have hstep : insertSamples max buf (s :: rest) =
        insertSamples max
          (if max < (buf ++ [s]).length then (buf ++ [s]).drop 1 else buf ++ [s])
          rest := rfl
    rw [hstep]
    exact ih _ (insertStep_length_le max buf s h)

lemma memEvict_length_le (mem : Nat) (buf : List ASHSample) :
    (memEvict mem buf).length ≤ buf.length := by
  unfold memEvict
  split
  · simp [List.length_drop]
  · exact Nat.le_refl _

lemma retentionEvict_length_le (cutoff : Int) (buf : List ASHSample) :
    (retentionEvict cutoff buf).length ≤ buf.length :=
  (List.dropWhile_suffix _).length_le

lemma samplerTick_length_le (max mem : Nat) (cutoff : Int)
    (new buf : List ASHSample) (h : buf.length ≤ max) :
    (samplerTick max mem cutoff new buf).length ≤ max := by
  have h1 : (memEvict mem buf).length ≤ max :=
    le_trans (memEvict_length_le mem buf) h
  have h2 : (insertSamples max (memEvict mem buf) new).length ≤ max :=
    insertSamples_length_le max new _ h1
  exact le_trans (retentionEvict_length_le cutoff _) h2

lemma runTicks_length_le (max mem : Nat)
    (ticks : List (Option (Int × List ASHSample))) :
    ∀ buf : List ASHSample, buf.length ≤ max →
      (ticks.foldl (fun b o => samplerTickOutcome max mem o b) buf).length ≤ max := by
  induction ticks with
  | nil => intro buf h; exact h
  | cons o rest ih =>
    intro buf h
    simp only [List.foldl_cons]
    refine ih _ ?_
    cases o with
    | none => exact h
    | some p => exact samplerTick_length_le max mem p.1 p.2 buf h

/-- Claim C8.  For every sequence of sampler ticks — each tick either
failing (buffer untouched) or inserting any number of new samples — the
ring buffer's length never exceeds the configured maximum sample count:
both after every complete tick and, within any further tick, already at
the moment its insertion phase completes. -/
theorem c8_buffer_bound (max mem : Nat)
    (ticks : List (Option (Int × List ASHSample))) (new : List ASHSample) :
    (runSampler max mem ticks).length ≤ max ∧
    (insertSamples max (memEvict mem (runSampler max mem ticks)) new).length ≤ max := by
  have hrun : (runSampler max mem ticks).length ≤ max :=
    runTicks_length_le max mem ticks [] (Nat.zero_le max)
  refine ⟨hrun, ?_⟩
  exact insertSamples_length_le max new _
    (le_trans (memEvict_length_le mem _) hrun)

/-!
## C7 — fixed SQL text vs. string interpolation
-/

set_option maxRecDepth 20000

/-- Claim C7 counterexample.  On the `QueryEngine` dispatch path
(`OHICompatibleQueryExecutor`), the SQL text sent for execution is *not*
independent of the user-controlled database list:
`QueryParams::from_common_params` quotes and joins the list into a
string and `format_query` splices it into the template by
`replace("%s", ..)`, so two parameter sets differing only in the
database list produce two different executed SQL strings for the
version-12 slow-query dispatch. -/
lemma executed_slow_sql_ne :
    execute_versioned_sql "slow_queries" 12 (from_common_params paramsDb1 "slow_queries") ≠
    execute_versioned_sql "slow_queries" 12 (from_common_params paramsDb2 "slow_queries") := by
  have hfmt : format_query SLOW_QUERIES_V12 (from_common_params paramsDb1 "slow_queries") ≠
      format_query SLOW_QUERIES_V12 (from_common_params paramsDb2 "slow_queries") := by
    decide
  have h1 : execute_versioned_sql "slow_queries" 12 (from_common_params paramsDb1 "slow_queries") =
      .ok (format_query SLOW_QUERIES_V12 (from_common_params paramsDb1 "slow_queries")) := rfl
  have h2 : execute_versioned_sql "slow_queries" 12 (from_common_params paramsDb2 "slow_queries") =
      .ok (format_query SLOW_QUERIES_V12 (from_common_params paramsDb2 "slow_queries")) := rfl
  rw [h1, h2]
  intro hE
  exact hfmt (Except.ok.inj hE)

theorem c7_counterexample :
    execute_versioned_sql "slow_queries" 12 (from_common_params paramsDb1 "slow_queries") ≠
    execute_versioned_sql "slow_queries" 12 (from_common_params paramsDb2 "slow_queries") :=
  executed_slow_sql_ne

/-- Claim C7, amended.  The `SafeQueryExecutor` dispatch path does satisfy
the claim: for every category, the SQL text of the executed statement
depends only on the server version and the RDS flag — never on the
user-controlled `CommonParameters` — with the database list and the
numeric thresholds carried exclusively in the bind list.  The
`QueryEngine::format_query` path instead splices the database list into
the SQL text, witnessed by the two differing executed strings. -/
theorem c7_amended :
    (∀ (p p' : CommonParameters) (v : Nat) (rds : Bool),
      (safeSlowQueriesStmt p v).1 = (safeSlowQueriesStmt p' v).1 ∧
      (safeWaitEventsStmt p rds).1 = (safeWaitEventsStmt p' rds).1 ∧
      (safeBlockingStmt p v rds).1 = (safeBlockingStmt p' v rds).1 ∧
      (safeIndividualStmt p v rds).1 = (safeIndividualStmt p' v rds).1) ∧
    (∀ (p : CommonParameters) (v : Nat),
      (safeSlowQueriesStmt p v).2 = safeSlowQueriesBinds p) ∧
    execute_versioned_sql "slow_queries" 12 (from_common_params paramsDb1 "slow_queries") ≠
    execute_versioned_sql "slow_queries" 12 (from_common_params paramsDb2 "slow_queries") := by
  refine ⟨fun p p' v rds => ⟨rfl, rfl, rfl, rfl⟩, fun p v => rfl, executed_slow_sql_ne⟩

end PsqlNext
